import Mathlib

/-!
# Verification of the Polymarket order-book monitor (polybot.py)

Shallow embedding of the core of `src/polybot.py`:

* the pure change detectors `calculate_price_changes` and
  `calculate_spread_change` (Python `Decimal` arithmetic is modelled by exact
  rationals `ℚ`; every `Decimal` the code builds here comes from API payloads
  and the arithmetic performed — subtraction, a single division by a non-zero
  previous value, multiplication by 100 — stays well inside the 28-digit
  context in every property stated below, so exact rationals are faithful);
* the paginated market discovery `initialize_markets` (modelled as
  `init_markets` over an explicit finite list of server pages);
* the poll loop `monitor_markets` / `check_market` (modelled as a state
  machine over `MonitorState`; network calls become oracle functions where
  `none` models an exception — network failure or malformed payload — raised
  by the call);
* the auth-header construction `_get_auth_headers` (the EIP-712 signing
  primitive from `eth_account` is external to the repository and abstracted
  as a function from the typed data to a signature string).

Python `dict`s keyed by strings are modelled as functions `String → Option α`
with pointwise update (`dictInsert`), which is exactly the dict-assignment
semantics the code relies on.
-/

/-- One order-book level, a `{price, size}` pair (`polybot.py` keeps these as
raw dict entries; only `price` is ever read by the monitor). -/
structure PriceLevel where
  price : ℚ
  size : ℚ
deriving DecidableEq, Repr

/-- An order book for one token: ordered `bids` and `asks`, best price first
(entry 0). Mirrors the JSON shape consumed by `calculate_price_changes`. -/
structure OrderBook where
  bids : List PriceLevel
  asks : List PriceLevel
deriving DecidableEq, Repr

/-- The best price of one side: `Decimal(book[side][0]["price"]) if book[side]
else Decimal('0')` (polybot.py lines 195-196). -/
def sideBest (levels : List PriceLevel) : ℚ :=
  match levels with
  | [] => 0
  | l :: _ => l.price

/-- Result of `calculate_price_changes`: the Python function returns a dict
whose keys range over `{"bids", "asks"}`; an absent key is `none` here. -/
structure PriceChanges where
  bids : Option ℚ
  asks : Option ℚ
deriving DecidableEq, Repr

/-- Per-side body of the loop in `calculate_price_changes` (lines 194-200):
if the previous best is non-zero, compute
`(curr_best - prev_best) / prev_best * 100` and keep the side iff the
absolute change is at least 15. -/
def sideChange (prevLevels currLevels : List PriceLevel) : Option ℚ :=
  let prev_best := sideBest prevLevels
  let curr_best := sideBest currLevels
  if prev_best ≠ 0 then
    let change_percent := (curr_best - prev_best) / prev_best * 100
    if |change_percent| ≥ 15 then some change_percent else none
  else none

/-- `OrderbookMonitor.calculate_price_changes` (polybot.py lines 191-201).
`previous_book` is `self.previous_books.get(token_id)`; the Python guard
`if previous_book:` is falsy exactly when the value is `None` (a stored book
dict always has its `bids`/`asks` keys and is never the empty dict). -/
def calculate_price_changes (previous_book : Option OrderBook)
    (current_book : OrderBook) : PriceChanges :=
  match previous_book with
  | none => ⟨none, none⟩
  | some prev =>
      ⟨sideChange prev.bids current_book.bids,
       sideChange prev.asks current_book.asks⟩

/-- `OrderbookMonitor.calculate_spread_change` (polybot.py lines 203-208).
The Python guard `if previous_spread:` is falsy when the value is `None`
or the `Decimal` zero, so both cases return `None`. -/
def calculate_spread_change (previous_spread : Option ℚ)
    (current_spread : ℚ) : Option ℚ :=
  match previous_spread with
  | none => none
  | some prev =>
      if prev ≠ 0 then
        let change_percent := (current_spread - prev) / prev * 100
        if |change_percent| ≥ 50 then some change_percent else none
      else none

/-- Claim C1: with a present previous book and a non-zero previous best price
on a side, `calculate_price_changes` includes that side iff
`|(currBest - prevBest) / prevBest * 100| ≥ 15`; at the boundary, a move of
exactly 15.00% is included and one of 14.99% is not (shown on the bids side
for previous best 100 with current best 115 resp. 114.99). -/
theorem claim_C1_price_change_threshold (prev curr : OrderBook) :
    (sideBest prev.bids ≠ 0 →
      ((calculate_price_changes (some prev) curr).bids.isSome ↔
        |(sideBest curr.bids - sideBest prev.bids) / sideBest prev.bids * 100|
          ≥ 15)) ∧
    (sideBest prev.asks ≠ 0 →
      ((calculate_price_changes (some prev) curr).asks.isSome ↔
        |(sideBest curr.asks - sideBest prev.asks) / sideBest prev.asks * 100|
          ≥ 15)) ∧
    (calculate_price_changes (some ⟨[⟨100, 1⟩], []⟩)
        (⟨[⟨115, 1⟩], []⟩ : OrderBook)).bids = some 15 ∧
    (calculate_price_changes (some ⟨[⟨100, 1⟩], []⟩)
        (⟨[⟨11499/100, 1⟩], []⟩ : OrderBook)).bids = none := by
  refine ⟨?_, ?_,
    by norm_num [calculate_price_changes, sideChange, sideBest, abs, max_def],
    by norm_num [calculate_price_changes, sideChange, sideBest, abs, max_def]⟩
  · intro h
    by_cases hc : |(sideBest curr.bids - sideBest prev.bids) /
        sideBest prev.bids * 100| ≥ 15
    · simp [calculate_price_changes, sideChange, h, hc]
    · simp [calculate_price_changes, sideChange, h, hc]
  · intro h
    by_cases hc : |(sideBest curr.asks - sideBest prev.asks) /
        sideBest prev.asks * 100| ≥ 15
    · simp [calculate_price_changes, sideChange, h, hc]
    · simp [calculate_price_changes, sideChange, h, hc]

/-- Claim C1 witness: concrete instance with previous best bid 100 and ask 2;
both previous bests are non-zero, so both side equivalences apply. -/
theorem claim_C1_price_change_threshold_witness :
    sideBest (OrderBook.mk [⟨100, 1⟩] [⟨2, 1⟩]).bids ≠ 0 ∧
    ((calculate_price_changes (some ⟨[⟨100, 1⟩], [⟨2, 1⟩]⟩)
        (⟨[⟨116, 1⟩], [⟨2, 1⟩]⟩ : OrderBook)).bids.isSome ↔
      |(sideBest (OrderBook.mk [⟨116, 1⟩] [⟨2, 1⟩]).bids -
          sideBest (OrderBook.mk [⟨100, 1⟩] [⟨2, 1⟩]).bids) /
        sideBest (OrderBook.mk [⟨100, 1⟩] [⟨2, 1⟩]).bids * 100| ≥ 15) :=
  ⟨by norm_num [sideBest],
   (claim_C1_price_change_threshold ⟨[⟨100, 1⟩], [⟨2, 1⟩]⟩
      ⟨[⟨116, 1⟩], [⟨2, 1⟩]⟩).1 (by norm_num [sideBest])⟩

/-- Claim C2: with a present, non-zero previous spread,
`calculate_spread_change` returns `(current - previous) / previous * 100`
iff its absolute value is at least 50, and `none` otherwise; at the boundary,
a move of exactly 50.00% is returned (1 → 1.5) and one of 49.99% is not
(1 → 1.4999). -/
theorem claim_C2_spread_change_threshold (prev curr : ℚ) :
    (prev ≠ 0 →
      calculate_spread_change (some prev) curr =
        (if |(curr - prev) / prev * 100| ≥ 50
          then some ((curr - prev) / prev * 100) else none)) ∧
    calculate_spread_change (some 1) (3/2) = some 50 ∧
    calculate_spread_change (some 1) (14999/10000) = none := by
  refine ⟨?_, ?_, ?_⟩
  · intro h
    simp [calculate_spread_change, h]
  · norm_num [calculate_spread_change, abs, max_def]
  · norm_num [calculate_spread_change, abs, max_def]

/-- Claim C2 witness: concrete instance with previous spread 2 and current
spread 5, a +150% move, returned because 150 ≥ 50. -/
theorem claim_C2_spread_change_threshold_witness :
    (2 : ℚ) ≠ 0 ∧
    calculate_spread_change (some 2) 5 =
      (if |((5 : ℚ) - 2) / 2 * 100| ≥ 50
        then some (((5 : ℚ) - 2) / 2 * 100) else none) :=
  ⟨by norm_num, (claim_C2_spread_change_threshold 2 5).1 (by norm_num)⟩

/-- Claim C6: if the previous book is absent, or the previous best price of a
side is 0 (in particular when the previous side is empty), no change is
reported for that side; `calculate_spread_change` returns `none` when the
previous spread is absent or zero. The division in either function only
occurs under the corresponding non-zero guard, so neither ever divides by a
zero previous value. -/
theorem claim_C6_zero_previous_guards (prev curr : OrderBook) (s : ℚ) :
    (∀ c : OrderBook, calculate_price_changes none c = ⟨none, none⟩) ∧
    (sideBest prev.bids = 0 →
      (calculate_price_changes (some prev) curr).bids = none) ∧
    (sideBest prev.asks = 0 →
      (calculate_price_changes (some prev) curr).asks = none) ∧
    (prev.bids = [] →
      (calculate_price_changes (some prev) curr).bids = none) ∧
    (∀ c : ℚ, calculate_spread_change none c = none) ∧
    calculate_spread_change (some 0) s = none := by
  refine ⟨fun c => rfl, ?_, ?_, ?_, fun c => rfl, by simp [calculate_spread_change]⟩
  · intro h
    simp [calculate_price_changes, sideChange, h]
  · intro h
    simp [calculate_price_changes, sideChange, h]
  · intro h
    simp [calculate_price_changes, sideChange, h, sideBest]

/-- Claim C6 witness: a previous book with an empty bids side (previous best
0) reports no bids change against a current book with best bid 7. -/
theorem claim_C6_zero_previous_guards_witness :
    sideBest (OrderBook.mk [] [⟨1, 1⟩]).bids = 0 ∧
    (calculate_price_changes (some ⟨[], [⟨1, 1⟩]⟩)
      (⟨[⟨7, 1⟩], []⟩ : OrderBook)).bids = none :=
  ⟨by norm_num [sideBest],
   (claim_C6_zero_previous_guards ⟨[], [⟨1, 1⟩]⟩ ⟨[⟨7, 1⟩], []⟩ 0).2.1
     (by norm_num [sideBest])⟩

/-- Claim C9: the spec's end-to-end scenarios. Previous best bid 100 →
current 116 reports the bids side at +16%; previous best ask 50 → current 52
(a +4% move) is not reported. Previous spread 1.0 → 0.4 returns −60%;
previous spread 1.0 → 0.6 (a −40% move) returns `none`. -/
theorem claim_C9_concrete_scenarios :
    calculate_price_changes (some ⟨[⟨100, 1⟩], [⟨50, 1⟩]⟩)
        (⟨[⟨116, 1⟩], [⟨52, 1⟩]⟩ : OrderBook) =
      ⟨some 16, none⟩ ∧
    calculate_spread_change (some 1) (4/10) = some (-60) ∧
    calculate_spread_change (some 1) (6/10) = none := by
  refine ⟨?_, ?_, ?_⟩
  · have hb : (calculate_price_changes (some ⟨[⟨100, 1⟩], [⟨50, 1⟩]⟩)
        (⟨[⟨116, 1⟩], [⟨52, 1⟩]⟩ : OrderBook)).bids = some 16 := by
      norm_num [calculate_price_changes, sideChange, sideBest, abs, max_def]
    have ha : (calculate_price_changes (some ⟨[⟨100, 1⟩], [⟨50, 1⟩]⟩)
        (⟨[⟨116, 1⟩], [⟨52, 1⟩]⟩ : OrderBook)).asks = none := by
      norm_num [calculate_price_changes, sideChange, sideBest, abs, max_def]
    calc calculate_price_changes (some ⟨[⟨100, 1⟩], [⟨50, 1⟩]⟩)
          (⟨[⟨116, 1⟩], [⟨52, 1⟩]⟩ : OrderBook)
        = ⟨(calculate_price_changes (some ⟨[⟨100, 1⟩], [⟨50, 1⟩]⟩)
              (⟨[⟨116, 1⟩], [⟨52, 1⟩]⟩ : OrderBook)).bids,
           (calculate_price_changes (some ⟨[⟨100, 1⟩], [⟨50, 1⟩]⟩)
              (⟨[⟨116, 1⟩], [⟨52, 1⟩]⟩ : OrderBook)).asks⟩ := rfl
      _ = ⟨some 16, none⟩ := by rw [hb, ha]
  · norm_num [calculate_spread_change, abs, max_def]
  · norm_num [calculate_spread_change, abs, max_def]

/-- The `Market` dataclass (polybot.py lines 23-43), restricted to the fields
the monitor reads; the remaining descriptive fields (`question_id`,
`rewards`, sizing and incentive parameters, timing fields, `icon`, `fpmm`,
...) are plain data never consulted by any modelled operation. A token is
the `{token_id, outcome}` mapping; the monitor only reads `token_id` of
entry 0. -/
structure Market where
  condition_id : String
  token_ids : List String
  description : String
  active : Bool
  closed : Bool
deriving DecidableEq, Repr

/-- Python dict assignment `d[k] = v` on a string-keyed dict modelled as a
pointwise functional update. -/
def dictInsert {α : Type} (d : String → Option α) (k : String) (v : α) :
    String → Option α :=
  fun q => if q = k then some v else d q

/-- The inner `for market_data in markets_data["data"]` loop of
`initialize_markets` (lines 154-157): insert every market of the page into
the registry keyed by `condition_id`. -/
def insertAll (d : String → Option Market) : List Market → (String → Option Market)
  | [] => d
  | m :: ms => insertAll (dictInsert d m.condition_id m) ms

/-- One response of `get_markets`: the `data` list of markets and the
server-supplied `next_cursor`. -/
structure Page where
  data : List Market
  next_cursor : String
deriving DecidableEq, Repr

/-- `OrderbookMonitor.initialize_markets` (polybot.py lines 149-161),
with the successive `get_markets` responses given as an explicit list of
pages consumed in order. Each iteration merges the page into the registry
and then tests `next_cursor == "LTE="`; `some (registry, n)` means the loop
returned after consuming `n` pages, `none` means the page stream was
exhausted without the sentinel (the Python loop would issue another request
instead of returning). -/
def init_markets (d : String → Option Market) :
    List Page → Option ((String → Option Market) × ℕ)
  | [] => none
  | p :: rest =>
      let d2 := insertAll d p.data
      if p.next_cursor = "LTE=" then some (d2, 1)
      else
        match init_markets d2 rest with
        | none => none
        | some (final, n) => some (final, n + 1)

/-- The last market of the list carrying the given `condition_id`, if any:
the value a last-write-wins merge keyed by `condition_id` must store. -/
def lastWith : List Market → String → Option Market
  | [], _ => none
  | m :: ms, cid =>
      match lastWith ms cid with
      | some m2 => some m2
      | none => if m.condition_id == cid then some m else none

/-- All markets of a page stream, in the order the loop sees them. -/
def allData : List Page → List Market
  | [] => []
  | p :: rest => p.data ++ allData rest

lemma insertAll_lookup (ms : List Market) (d : String → Option Market)
    (cid : String) :
    insertAll d ms cid =
      match lastWith ms cid with
      | some m => some m
      | none => d cid := by
  induction ms generalizing d with
  | nil => simp [insertAll, lastWith]
  | cons m ms ih =>
      rw [insertAll, ih]
      cases hl : lastWith ms cid with
      | some m2 => simp [lastWith, hl]
      | none =>
          by_cases hc : m.condition_id = cid
          · simp [lastWith, hl, hc, dictInsert]
          · simp [lastWith, hl, hc, dictInsert, Ne.symm hc]

lemma insertAll_append (xs ys : List Market) (d : String → Option Market) :
    insertAll d (xs ++ ys) = insertAll (insertAll d xs) ys := by
  induction xs generalizing d with
  | nil => simp [insertAll]
  | cons m xs ih => rw [List.cons_append, insertAll, insertAll, ih]

lemma init_markets_run (ps : List Page) (p : Page)
    (hp : p.next_cursor = "LTE=")
    (hps : ∀ q ∈ ps, q.next_cursor ≠ "LTE=")
    (d : String → Option Market) :
    init_markets d (ps ++ [p]) =
      some (insertAll d (allData (ps ++ [p])), ps.length + 1) := by
  induction ps generalizing d with
  | nil => simp [init_markets, hp, allData, insertAll]
  | cons q ps ih =>
      have hq : q.next_cursor ≠ "LTE=" := hps q (by simp)
      rw [List.cons_append, init_markets]
      simp only [hq, if_neg, ite_false]
      rw [ih (fun r hr => hps r (by simp [hr])) (insertAll d q.data)]
      simp [allData, insertAll_append, List.length_cons]

/-- Claim C5: for a finite page stream whose final page carries the sentinel
cursor `"LTE="` (and no earlier page does), `initialize_markets` terminates
after consuming exactly every page up to and including the sentinel one, and
the resulting registry maps each `condition_id` to the last market returned
with that id across all consumed pages. -/
theorem claim_C5_pagination_terminates (ps : List Page) (p : Page)
    (hp : p.next_cursor = "LTE=")
    (hps : ∀ q ∈ ps, q.next_cursor ≠ "LTE=") :
    ∃ reg, init_markets (fun _ => none) (ps ++ [p]) =
        some (reg, ps.length + 1) ∧
      ∀ cid, reg cid = lastWith (allData (ps ++ [p])) cid := by
  refine ⟨insertAll (fun _ => none) (allData (ps ++ [p])),
    init_markets_run ps p hp hps _, fun cid => ?_⟩
  rw [insertAll_lookup]
  cases lastWith (allData (ps ++ [p])) cid <;> rfl

/-- Claim C5 witness: two pages where a market id reappears on the second
page; initialization consumes both pages and keeps the later market. -/
theorem claim_C5_pagination_terminates_witness :
    (Page.mk [⟨"c1", ["t1"], "later", true, false⟩] "LTE=").next_cursor
        = "LTE=" ∧
    (∀ q ∈ [Page.mk [⟨"c1", ["t1"], "first", true, false⟩,
                     ⟨"c2", ["t2"], "other", true, false⟩] "page2"],
        q.next_cursor ≠ "LTE=") ∧
    ∃ reg, init_markets (fun _ => none)
          ([Page.mk [⟨"c1", ["t1"], "first", true, false⟩,
                     ⟨"c2", ["t2"], "other", true, false⟩] "page2"] ++
            [Page.mk [⟨"c1", ["t1"], "later", true, false⟩] "LTE="]) =
        some (reg, [Page.mk [⟨"c1", ["t1"], "first", true, false⟩,
                     ⟨"c2", ["t2"], "other", true, false⟩] "page2"].length + 1) ∧
      ∀ cid, reg cid = lastWith (allData
          ([Page.mk [⟨"c1", ["t1"], "first", true, false⟩,
                     ⟨"c2", ["t2"], "other", true, false⟩] "page2"] ++
            [Page.mk [⟨"c1", ["t1"], "later", true, false⟩] "LTE="])) cid :=
  ⟨rfl, by decide,
   claim_C5_pagination_terminates _ _ rfl (by decide)⟩

/-- The monitor's mutable per-token caches (`OrderbookMonitor.__init__`,
polybot.py lines 128-129): `previous_books` and `previous_spreads`. -/
structure MonitorState where
  previous_books : String → Option OrderBook
  previous_spreads : String → Option ℚ

/-- Both caches start empty at construction. -/
def initialState : MonitorState := ⟨fun _ => none, fun _ => none⟩

/-- Whether `check_market` returned normally or raised (an exception from a
fetch or from parsing its payload propagates to the caller). -/
inductive CheckResult
  | ok
  | error
deriving DecidableEq, Repr

/-- Outcome of the alert step of one check: no alert condition, alert
delivered, or alert delivery failed (the Telegram send raised). -/
inductive AlertOutcome
  | notFired
  | delivered
  | deliveryFailed
deriving DecidableEq, Repr

/-- `OrderbookMonitor.send_alert` (polybot.py lines 210-226): the Telegram
send sits inside its own `try`/`except` (lines 222-226), so a delivery
failure is logged and swallowed and `send_alert` always returns normally;
`deliver` is the oracle saying whether the send succeeds. -/
def send_alert (deliver : Bool) : AlertOutcome :=
  if deliver then AlertOutcome.delivered else AlertOutcome.deliveryFailed

/-- `OrderbookMonitor.check_market` (polybot.py lines 177-189) for one
token. `fetchBook`/`fetchSpread` model `get_order_book`/`get_spread`;
`none` models an exception raised by the call (network failure or malformed
payload), which propagates out of `check_market` before either cache is
written. On success the alert condition `if price_changes or spread_change:`
uses Python truthiness: a dict is truthy iff non-empty, an
`Optional[Decimal]` iff it is a non-zero value. Both caches are then
overwritten with the fresh book and spread (lines 188-189), whatever the
alert outcome was. -/
def check_market (fetchBook : String → Option OrderBook)
    (fetchSpread : String → Option ℚ) (deliver : Bool)
    (token_id : String) (st : MonitorState) :
    CheckResult × AlertOutcome × MonitorState :=
  match fetchBook token_id with
  | none => (CheckResult.error, AlertOutcome.notFired, st)
  | some book =>
      match fetchSpread token_id with
      | none => (CheckResult.error, AlertOutcome.notFired, st)
      | some spread =>
          let price_changes :=
            calculate_price_changes (st.previous_books token_id) book
          let spread_change :=
            calculate_spread_change (st.previous_spreads token_id) spread
          let fired := price_changes.bids.isSome || price_changes.asks.isSome ||
            (match spread_change with
             | none => false
             | some v => decide (v ≠ 0))
          let outcome := if fired then send_alert deliver
                         else AlertOutcome.notFired
          (CheckResult.ok, outcome,
           ⟨dictInsert st.previous_books token_id book,
            dictInsert st.previous_spreads token_id spread⟩)

/-- `market.tokens[0]["token_id"]` (line 170); `none` models the
`IndexError` raised when `tokens` is empty. -/
def primaryToken (m : Market) : Option String :=
  m.token_ids.head?

/-- How one pass of the `while True:` body ended: `completed` means the
`for` loop over the registry finished and the loop slept normally;
`aborted` means an exception escaped from some market's check and was caught
by the `except` at the loop level (lines 173-175), which logged it, slept,
and resumed — the process never crashes either way. -/
inductive PassResult
  | completed
  | aborted
deriving DecidableEq, Repr

/-- One pass of the monitor loop (polybot.py lines 167-172): iterate the
registry in order, check each market with `active and not closed` on its
primary token. The single `try` wraps the whole `for`, so the first
exception aborts the rest of the pass. Returns the pass result, the list of
token ids whose check was attempted (fetches issued), and the final cache
state. -/
def run_pass (fetchBook : String → Option OrderBook)
    (fetchSpread : String → Option ℚ) (deliver : Bool) :
    List Market → MonitorState → PassResult × List String × MonitorState
  | [], st => (PassResult.completed, [], st)
  | m :: rest, st =>
      if m.active && !m.closed then
        match primaryToken m with
        | none => (PassResult.aborted, [], st)
        | some tok =>
            let c := check_market fetchBook fetchSpread deliver tok st
            if c.1 = CheckResult.error then (PassResult.aborted, [tok], c.2.2)
            else
              let r := run_pass fetchBook fetchSpread deliver rest c.2.2
              (r.1, tok :: r.2.1, r.2.2)
      else run_pass fetchBook fetchSpread deliver rest st

/-- `n` iterations of the `while True:` monitor loop (lines 166-175), the
network and delivery oracles indexed by pass number. Total by construction:
every exception inside a pass is caught by the loop-level `except`, so a
pass always yields a state for the next one. -/
def run_loop (fetchBook : ℕ → String → Option OrderBook)
    (fetchSpread : ℕ → String → Option ℚ) (deliver : ℕ → Bool)
    (markets : List Market) : ℕ → MonitorState → MonitorState
  | 0, st => st
  | n + 1, st =>
      run_loop fetchBook fetchSpread deliver markets n
        (run_pass (fetchBook n) (fetchSpread n) (deliver n) markets st).2.2

/-- Claim C4: whenever both fetches of a check succeed, `check_market`
returns normally and both `PreviousState` caches for that token are
overwritten with the freshly fetched book and spread — for every starting
state (so whether or not an alert condition fired) and for both values of
the delivery oracle (so whether the Telegram send succeeded or failed): an
alert-delivery error neither prevents the overwrite nor aborts the pass. -/
theorem claim_C4_state_overwritten_regardless_of_alert
    (fetchBook : String → Option OrderBook) (fetchSpread : String → Option ℚ)
    (deliver : Bool) (t : String) (st : MonitorState)
    (b : OrderBook) (s : ℚ)
    (hb : fetchBook t = some b) (hs : fetchSpread t = some s) :
    (check_market fetchBook fetchSpread deliver t st).1 = CheckResult.ok ∧
    (check_market fetchBook fetchSpread deliver t st).2.2.previous_books t
      = some b ∧
    (check_market fetchBook fetchSpread deliver t st).2.2.previous_spreads t
      = some s := by
  simp [check_market, hb, hs, dictInsert]

/-- Claim C4 witness: a delivery-failure run (`deliver = false`) over a
state that triggers an alert (cached spread 1, fresh spread 4: a +300%
move); the caches are still overwritten with the fresh values. -/
theorem claim_C4_state_overwritten_regardless_of_alert_witness :
    (fun _ : String => some (OrderBook.mk [] [])) "t1"
        = some (OrderBook.mk [] []) ∧
    (fun _ : String => some (4 : ℚ)) "t1" = some (4 : ℚ) ∧
    ((check_market (fun _ => some ⟨[], []⟩) (fun _ => some 4) false "t1"
        ⟨fun _ => none, fun _ => some 1⟩).1 = CheckResult.ok ∧
     (check_market (fun _ => some ⟨[], []⟩) (fun _ => some 4) false "t1"
        ⟨fun _ => none, fun _ => some 1⟩).2.2.previous_books "t1"
       = some ⟨[], []⟩ ∧
     (check_market (fun _ => some ⟨[], []⟩) (fun _ => some 4) false "t1"
        ⟨fun _ => none, fun _ => some 1⟩).2.2.previous_spreads "t1"
       = some 4) :=
  ⟨rfl, rfl,
   claim_C4_state_overwritten_regardless_of_alert
     (fun _ => some ⟨[], []⟩) (fun _ => some 4) false "t1"
     ⟨fun _ => none, fun _ => some 1⟩ ⟨[], []⟩ 4 rfl rfl⟩

/-- Claim C7: during a pass, every token whose check is attempted (and hence
every token a book or spread fetch is issued for) comes from a market of the
registry with `active = true` and `closed = false`, and is that market's
primary token `tokens[0].token_id`; so a market with `closed = true` or
`active = false` is never polled. -/
theorem claim_C7_only_active_open_markets_polled
    (fetchBook : String → Option OrderBook) (fetchSpread : String → Option ℚ)
    (deliver : Bool) (markets : List Market) (st : MonitorState) (tok : String)
    (htok : tok ∈ (run_pass fetchBook fetchSpread deliver markets st).2.1) :
    ∃ m, m ∈ markets ∧ m.active = true ∧ m.closed = false ∧
      primaryToken m = some tok := by
  induction markets generalizing st with
  | nil => simp [run_pass] at htok
  | cons m rest ih =>
      rw [run_pass] at htok
      by_cases he : (m.active && !m.closed) = true
      · obtain ⟨ha, hc⟩ : m.active = true ∧ m.closed = false := by
          simpa using he
        rw [if_pos he] at htok
        cases hpt : primaryToken m with
        | none => rw [hpt] at htok; simp at htok
        | some t =>
            rw [hpt] at htok
            simp only at htok
            by_cases herr :
                (check_market fetchBook fetchSpread deliver t st).1
                  = CheckResult.error
            · rw [if_pos herr] at htok
              simp only [List.mem_singleton] at htok
              subst htok
              exact ⟨m, List.mem_cons_self m rest, ha, hc, hpt⟩
            · rw [if_neg herr] at htok
              simp only [List.mem_cons] at htok
              cases htok with
              | inl h1 =>
                  subst h1
                  exact ⟨m, List.mem_cons_self m rest, ha, hc, hpt⟩
              | inr h2 =>
                  obtain ⟨m2, hm2, h3⟩ := ih _ h2
                  exact ⟨m2, List.mem_cons_of_mem m hm2, h3⟩
      · rw [if_neg he] at htok
        obtain ⟨m2, hm2, h3⟩ := ih _ htok
        exact ⟨m2, List.mem_cons_of_mem m hm2, h3⟩

/-- Claim C7 witness: a registry with one eligible and one closed market;
the eligible market's primary token is checked, and the theorem produces the
eligible market as its origin. -/
theorem claim_C7_only_active_open_markets_polled_witness :
    "t1" ∈ (run_pass (fun _ => some ⟨[], []⟩) (fun _ => some 1) true
        [⟨"c1", ["t1"], "open", true, false⟩,
         ⟨"c2", ["t2"], "closed", true, true⟩] initialState).2.1 ∧
    ∃ m, m ∈ [(⟨"c1", ["t1"], "open", true, false⟩ : Market),
              ⟨"c2", ["t2"], "closed", true, true⟩] ∧
      m.active = true ∧ m.closed = false ∧ primaryToken m = some "t1" :=
  ⟨by decide,
   claim_C7_only_active_open_markets_polled
     (fun _ => some ⟨[], []⟩) (fun _ => some 1) true
     [⟨"c1", ["t1"], "open", true, false⟩,
      ⟨"c2", ["t2"], "closed", true, true⟩] initialState "t1" (by decide)⟩

/-- The implicit cache invariant: a token has a cached book iff it has a
cached spread. -/
def keysAligned (st : MonitorState) : Prop :=
  ∀ t, (st.previous_books t).isSome ↔ (st.previous_spreads t).isSome

lemma check_market_keysAligned (fetchBook : String → Option OrderBook)
    (fetchSpread : String → Option ℚ) (deliver : Bool) (tok : String)
    (st : MonitorState) (h : keysAligned st) :
    keysAligned (check_market fetchBook fetchSpread deliver tok st).2.2 := by
  cases hb : fetchBook tok with
  | none => simpa [check_market, hb] using h
  | some b =>
      cases hs : fetchSpread tok with
      | none => simpa [check_market, hb, hs] using h
      | some s =>
          intro t2
          by_cases ht : t2 = tok
          · simp [check_market, hb, hs, dictInsert, ht]
          · simpa [check_market, hb, hs, dictInsert, ht] using h t2

lemma run_pass_keysAligned (fetchBook : String → Option OrderBook)
    (fetchSpread : String → Option ℚ) (deliver : Bool)
    (markets : List Market) (st : MonitorState) (h : keysAligned st) :
    keysAligned (run_pass fetchBook fetchSpread deliver markets st).2.2 := by
  induction markets generalizing st with
  | nil => simpa [run_pass] using h
  | cons m rest ih =>
      rw [run_pass]
      by_cases he : (m.active && !m.closed) = true
      · rw [if_pos he]
        cases hpt : primaryToken m with
        | none => simpa using h
        | some t =>
            simp only
            by_cases herr :
                (check_market fetchBook fetchSpread deliver t st).1
                  = CheckResult.error
            · rw [if_pos herr]
              exact check_market_keysAligned _ _ _ _ _ h
            · rw [if_neg herr]
              exact ih _ (check_market_keysAligned _ _ _ _ _ h)
      · rw [if_neg he]
        exact ih _ h

lemma run_loop_keysAligned (fetchBook : ℕ → String → Option OrderBook)
    (fetchSpread : ℕ → String → Option ℚ) (deliver : ℕ → Bool)
    (markets : List Market) (n : ℕ) (st : MonitorState)
    (h : keysAligned st) :
    keysAligned (run_loop fetchBook fetchSpread deliver markets n st) := by
  induction n generalizing st with
  | zero => exact h
  | succ k ih =>
      exact ih _ (run_pass_keysAligned _ _ _ _ _ h)

/-- Claim C10: (1) `check_market` preserves key-set alignment of the two
caches from any aligned state — the only writes are the paired assignments
to `previous_books[token_id]` and `previous_spreads[token_id]` after both
fetches and the detection/alert step; (2) a `check_market` call either
returns normally or (when a fetch raised) leaves the state exactly as it
was; (3) hence from the empty startup state, after any number of passes of
the loop the two caches have identical key sets. -/
theorem claim_C10_caches_key_aligned :
    (∀ (fetchBook : String → Option OrderBook)
       (fetchSpread : String → Option ℚ) (deliver : Bool) (tok : String)
       (st : MonitorState), keysAligned st →
        keysAligned (check_market fetchBook fetchSpread deliver tok st).2.2) ∧
    (∀ (fetchBook : String → Option OrderBook)
       (fetchSpread : String → Option ℚ) (deliver : Bool) (tok : String)
       (st : MonitorState),
        (check_market fetchBook fetchSpread deliver tok st).1 = CheckResult.ok
          ∨ (check_market fetchBook fetchSpread deliver tok st).2.2 = st) ∧
    (∀ (fetchBook : ℕ → String → Option OrderBook)
       (fetchSpread : ℕ → String → Option ℚ) (deliver : ℕ → Bool)
       (markets : List Market) (n : ℕ),
        keysAligned (run_loop fetchBook fetchSpread deliver markets n
          initialState)) := by
  refine ⟨check_market_keysAligned, ?_, ?_⟩
  · intro fetchBook fetchSpread deliver tok st
    cases hb : fetchBook tok with
    | none => exact Or.inr (by simp [check_market, hb])
    | some b =>
        cases hs : fetchSpread tok with
        | none => exact Or.inr (by simp [check_market, hb, hs])
        | some s => exact Or.inl (by simp [check_market, hb, hs])
  · intro fetchBook fetchSpread deliver markets n
    exact run_loop_keysAligned fetchBook fetchSpread deliver markets n
      initialState (fun t => Iff.rfl)

/-- Claim C10 witness: the empty startup state is aligned, and stays aligned
after a check whose book fetch fails. -/
theorem claim_C10_caches_key_aligned_witness :
    keysAligned initialState ∧
    keysAligned (check_market (fun _ => none) (fun _ => some 1) true "t1"
      initialState).2.2 :=
  ⟨fun _ => Iff.rfl,
   claim_C10_caches_key_aligned.1 (fun _ => none) (fun _ => some 1) true "t1"
     initialState (fun _ => Iff.rfl)⟩

lemma run_pass_append (fetchBook : String → Option OrderBook)
    (fetchSpread : String → Option ℚ) (deliver : Bool)
    (xs ys : List Market) (st : MonitorState) :
    run_pass fetchBook fetchSpread deliver (xs ++ ys) st =
      if (run_pass fetchBook fetchSpread deliver xs st).1
          = PassResult.completed then
        ((run_pass fetchBook fetchSpread deliver ys
            (run_pass fetchBook fetchSpread deliver xs st).2.2).1,
         (run_pass fetchBook fetchSpread deliver xs st).2.1 ++
           (run_pass fetchBook fetchSpread deliver ys
             (run_pass fetchBook fetchSpread deliver xs st).2.2).2.1,
         (run_pass fetchBook fetchSpread deliver ys
           (run_pass fetchBook fetchSpread deliver xs st).2.2).2.2)
      else run_pass fetchBook fetchSpread deliver xs st := by
  induction xs generalizing st with
  | nil => simp [run_pass]
  | cons m rest ih =>
      rw [List.cons_append, run_pass]
      conv_rhs => rw [run_pass]
      by_cases he : (m.active && !m.closed) = true
      · rw [if_pos he, if_pos he]
        cases hpt : primaryToken m with
        | none => simp
        | some t =>
            simp only
            by_cases herr :
                (check_market fetchBook fetchSpread deliver t st).1
                  = CheckResult.error
            · rw [if_pos herr, if_pos herr]
              simp
            · rw [if_neg herr, if_neg herr]
              rw [ih]
              by_cases hdone :
                  (run_pass fetchBook fetchSpread deliver rest
                    (check_market fetchBook fetchSpread deliver t st).2.2).1
                    = PassResult.completed
              · rw [if_pos hdone, if_pos hdone]
                simp
              · rw [if_neg hdone, if_neg hdone]
      · rw [if_neg he, if_neg he]
        exact ih st

/-- Claim C3 counterexample: registry of two active open markets, a network
failure on the first market's book fetch. The pass checks only token `"t1"`:
the exception escapes `check_market`, the loop-level `except` catches it
(the pass is `aborted`, not a crash), and market `"c2"` — later in the same
pass — is never checked, contradicting the claim that a failure on one
market does not prevent the remaining markets of the same pass from being
checked. -/
theorem claim_C3_counterexample :
    (run_pass (fun t => if t = "t1" then none else some ⟨[], []⟩)
        (fun _ => some 1) true
        [⟨"c1", ["t1"], "m1", true, false⟩, ⟨"c2", ["t2"], "m2", true, false⟩]
        initialState).2.1 = ["t1"] ∧
    "t2" ∉ (run_pass (fun t => if t = "t1" then none else some ⟨[], []⟩)
        (fun _ => some 1) true
        [⟨"c1", ["t1"], "m1", true, false⟩, ⟨"c2", ["t2"], "m2", true, false⟩]
        initialState).2.1 ∧
    (run_pass (fun t => if t = "t1" then none else some ⟨[], []⟩)
        (fun _ => some 1) true
        [⟨"c1", ["t1"], "m1", true, false⟩, ⟨"c2", ["t2"], "m2", true, false⟩]
        initialState).1 = PassResult.aborted := by
  refine ⟨by decide, by decide, by decide⟩

/-- Claim C3 as amended: the `try` of `monitor_markets` wraps the whole
`for` over the registry, so an exception raised while checking one market
aborts the remainder of that pass — after a completed prefix, a failing
eligible market ends the pass with exactly its own token as the last check
attempted and nothing from the rest of the registry checked. The exception
is caught at the loop level, so the loop itself does not crash: the pass
result is `aborted` (logged, slept, resumed), never a process exit. -/
theorem claim_C3_failure_aborts_rest_of_pass
    (fetchBook : String → Option OrderBook) (fetchSpread : String → Option ℚ)
    (deliver : Bool) (pre post : List Market) (m : Market)
    (st st2 : MonitorState) (toks : List String) (tok : String)
    (hpre : run_pass fetchBook fetchSpread deliver pre st
      = (PassResult.completed, toks, st2))
    (ha : m.active = true) (hc : m.closed = false)
    (hpt : primaryToken m = some tok)
    (hfail : fetchBook tok = none) :
    run_pass fetchBook fetchSpread deliver (pre ++ m :: post) st
      = (PassResult.aborted, toks ++ [tok], st2) := by
  rw [run_pass_append, hpre]
  simp only [if_pos rfl]
  rw [run_pass]
  simp [ha, hc, hpt, check_market, hfail]

/-- Claim C3 amended-theorem witness: empty completed prefix, then the
failing market `"c1"`, then an unreached market `"c2"`. -/
theorem claim_C3_failure_aborts_rest_of_pass_witness :
    run_pass (fun t => if t = "t1" then none else some ⟨[], []⟩)
        (fun _ => some 1) true [] initialState
      = (PassResult.completed, [], initialState) ∧
    (Market.mk "c1" ["t1"] "m1" true false).active = true ∧
    (Market.mk "c1" ["t1"] "m1" true false).closed = false ∧
    primaryToken (Market.mk "c1" ["t1"] "m1" true false) = some "t1" ∧
    (fun t => if t = "t1" then none
      else some (OrderBook.mk [] [])) "t1" = none ∧
    run_pass (fun t => if t = "t1" then none else some ⟨[], []⟩)
        (fun _ => some 1) true
        ([] ++ (Market.mk "c1" ["t1"] "m1" true false) ::
          [Market.mk "c2" ["t2"] "m2" true false]) initialState
      = (PassResult.aborted, [] ++ ["t1"], initialState) :=
  ⟨rfl, rfl, rfl, rfl, by decide,
   claim_C3_failure_aborts_rest_of_pass
     (fun t => if t = "t1" then none else some ⟨[], []⟩) (fun _ => some 1)
     true [] [Market.mk "c2" ["t2"] "m2" true false]
     (Market.mk "c1" ["t1"] "m1" true false) initialState initialState []
     "t1" rfl rfl rfl rfl (by decide)⟩

/-- The EIP-712 domain of `_get_auth_headers` (polybot.py lines 60-64). -/
structure SigningDomain where
  name : String
  version : String
  chainId : ℕ
deriving DecidableEq, Repr

/-- The typed message of `_get_auth_headers` (lines 65-69). -/
structure AuthMessage where
  action : String
  timestamp : ℕ
  nonce : ℕ
deriving DecidableEq, Repr

/-- The full typed-data payload passed to `encode_typed_data` (lines 70-86);
the `types` block is the fixed schema literal of those lines and carries no
run-time variation, so only `domain`, `primaryType` and `message` are
modelled. -/
structure TypedData where
  domain : SigningDomain
  primaryType : String
  message : AuthMessage
deriving DecidableEq, Repr

/-- The header set returned by `_get_auth_headers` (lines 90-95): exactly
the four `POLY-*` headers, every value a string. -/
structure AuthHeaders where
  poly_address : String
  poly_signature : String
  poly_timestamp : String
  poly_nonce : String
deriving DecidableEq, Repr

/-- `PolymarketClient._get_auth_headers` (polybot.py lines 56-95). `sign`
abstracts `self.account.sign_message(encode_typed_data(·)).signature.hex()`,
the EIP-712 signing primitive of the external `eth_account` library;
`address` is `self.address`; `timestamp` is the `int(time.time() * 1000)`
epoch-millisecond reading taken at the start of the call. Returns the header
set together with the typed data that was signed. -/
def get_auth_headers (sign : TypedData → String) (address : String)
    (timestamp : ℕ) : AuthHeaders × TypedData :=
  let nonce : ℕ := 0
  let domain : SigningDomain := ⟨"Polymarket CLOB", "1", 137⟩
  let message : AuthMessage := ⟨"Auth", timestamp, nonce⟩
  let data : TypedData := ⟨domain, "Auth", message⟩
  (⟨address, sign data, toString timestamp, toString nonce⟩, data)

/-- Claim C8: every call returns exactly the four-header set — address,
signature, timestamp, nonce, all strings, by construction of `AuthHeaders` —
where the signed typed message is `{action: "Auth", timestamp: t, nonce: 0}`
under domain `("Polymarket CLOB", "1", 137)` with primary type `"Auth"`;
the nonce signed and sent is the constant 0 on every call, whatever the
signer, address and clock reading are. -/
theorem claim_C8_auth_headers_shape (sign : TypedData → String)
    (address : String) (timestamp : ℕ) :
    (get_auth_headers sign address timestamp).2.message
        = ⟨"Auth", timestamp, 0⟩ ∧
    (get_auth_headers sign address timestamp).2.domain
        = ⟨"Polymarket CLOB", "1", 137⟩ ∧
    (get_auth_headers sign address timestamp).2.primaryType = "Auth" ∧
    (get_auth_headers sign address timestamp).1
        = ⟨address, sign (get_auth_headers sign address timestamp).2,
           toString timestamp, "0"⟩ ∧
    (get_auth_headers sign address timestamp).1.poly_nonce = "0" :=
  ⟨rfl, rfl, rfl, rfl, rfl⟩
